import Mathlib

/-!
# Sandbox lifecycle: constructor, cleanup registry, Wait/Stop and Snapshot

A shallow embedding of `packages/orchestrator/internal/sandbox/sandbox_linux.go`.

* Collaborators (template cache, network pool, rootfs overlay, userfault pager,
  hypervisor process, DNS, proxy, file system) are outside the file; what each
  of their calls returns is an input, collected in `Env`.
* Every call the code makes is appended to a trace of `Event`s, so that the
  order of calls and the number of times a call is made can be stated.
* The closures handed to the cleanup registry are defunctionalised: a
  `CleanupFn` names the closure, `CleanupFn.exec` is its body.
-/

namespace Orchestrator

/-! ## Go errors -/

/-- A Go `error` value that is not nil: an error produced by a collaborator
(`leaf`), `fmt.Errorf("<msg>: %w", err)` (`wrap`), or the value built by
`errors.Join` from its non-nil arguments (`join`). -/
inductive GoError where
  | leaf : String → GoError
  | wrap : String → GoError → GoError
  | join : List GoError → GoError

mutual
/-- Structural equality of error values. -/
def GoError.beq : GoError → GoError → Bool
  | .leaf a, .leaf b => a == b
  | .wrap p a, .wrap q b => p == q && GoError.beq a b
  | .join xs, .join ys => GoError.beqList xs ys
  | _, _ => false
/-- Structural equality of lists of error values. -/
def GoError.beqList : List GoError → List GoError → Bool
  | [], [] => true
  | x :: xs, y :: ys => GoError.beq x y && GoError.beqList xs ys
  | _, _ => false
end

mutual
/-- The check `errors.Is(e, t)` with equality as the match: `t` is `e` itself
or is reached from `e` by unwrapping `%w` wrappers and joined errors. -/
def GoError.has (t : GoError) : GoError → Bool
  | .leaf a => GoError.beq (.leaf a) t
  | .wrap p a => GoError.beq (.wrap p a) t || GoError.has t a
  | .join xs => GoError.beq (.join xs) t || GoError.hasAny t xs
/-- Some error of the list contains `t`. -/
def GoError.hasAny (t : GoError) : List GoError → Bool
  | [] => false
  | x :: xs => GoError.has t x || GoError.hasAny t xs
end

/-- The call `fmt.Errorf("<msg>: %w", err)` on a non-nil `err`. -/
def fmtErrorf (msg : String) (err : GoError) : GoError := .wrap msg err

/-- The call `errors.Join(errs...)`: nil values are discarded, the result is
nil when every value is nil. -/
def errorsJoin (errs : List (Option GoError)) : Option GoError :=
  match errs.filterMap id with
  | [] => none
  | e :: es => some (.join (e :: es))

/-! ## `semver.Compare` of golang.org/x/mod/semver -/

namespace semver

/-- The fields of a parsed version that `Compare` reads. -/
structure parsed where
  major : List Char
  minor : List Char
  patch : List Char
  prerelease : List Char
  build : List Char
  deriving DecidableEq, Repr

def isDigit (c : Char) : Bool := decide ('0' ≤ c) && decide (c ≤ '9')

def isIdentChar (c : Char) : Bool :=
  (decide ('A' ≤ c) && decide (c ≤ 'Z')) || (decide ('a' ≤ c) && decide (c ≤ 'z')) ||
    (decide ('0' ≤ c) && decide (c ≤ '9')) || c == '-'

/-- The function `parseInt`: a run of digits without a leading zero, and the rest. -/
def parseInt (v : List Char) : Option (List Char × List Char) :=
  match v with
  | [] => none
  | c :: cs =>
    if !isDigit c then none
    else
      let t := c :: cs.takeWhile isDigit
      let rest := cs.dropWhile isDigit
      if c == '0' && t.length != 1 then none else some (t, rest)

/-- The function `isBadNum`: all digits, longer than one, starting with `0`. -/
def isBadNum (v : List Char) : Bool :=
  v.all isDigit && decide (1 < v.length) && v.head? == some '0'

/-- The function `isNum`: all digits. -/
def isNum (v : List Char) : Bool := v.all isDigit

/-- The scanning loop of `parsePrerelease` (`build = false`) and `parseBuild`
(`build = true`): `acc` are the characters consumed so far (reversed) and
`ident` the characters of the identifier being read (reversed). -/
def scanIdents (build : Bool) : List Char → List Char → List Char →
    Option (List Char × List Char)
  | acc, ident, [] =>
    if ident.isEmpty || (!build && isBadNum ident.reverse) then none
    else some (acc.reverse, [])
  | acc, ident, c :: cs =>
    if !build && c == '+' then
      if ident.isEmpty || isBadNum ident.reverse then none
      else some (acc.reverse, c :: cs)
    else if !isIdentChar c && c != '.' then none
    else if c == '.' then
      if ident.isEmpty || (!build && isBadNum ident.reverse) then none
      else scanIdents build (c :: acc) [] cs
    else scanIdents build (c :: acc) (c :: ident) cs

/-- The function `parsePrerelease`. -/
def parsePrerelease (v : List Char) : Option (List Char × List Char) :=
  match v with
  | '-' :: cs => scanIdents false ['-'] [] cs
  | _ => none

/-- The function `parseBuild`. -/
def parseBuild (v : List Char) : Option (List Char × List Char) :=
  match v with
  | '+' :: cs => scanIdents true ['+'] [] cs
  | _ => none

/-- The tail of `parse` after the patch number: optional prerelease, optional
build, then the end of the string. -/
def parseTail (major minor patch : List Char) (v : List Char) : Option parsed :=
  let pre : Option (List Char × List Char) :=
    match v with
    | '-' :: _ => parsePrerelease v
    | _ => some ([], v)
  match pre with
  | none => none
  | some (prerelease, v) =>
    let bld : Option (List Char × List Char) :=
      match v with
      | '+' :: _ => parseBuild v
      | _ => some ([], v)
    match bld with
    | none => none
    | some (build, v) =>
      if v != [] then none
      else some { major := major, minor := minor, patch := patch,
                  prerelease := prerelease, build := build }

/-- The function `parse`: `none` is `ok = false`. -/
def parse (v : List Char) : Option parsed :=
  match v with
  | 'v' :: v =>
    match parseInt v with
    | none => none
    | some (major, v) =>
      match v with
      | [] => some { major := major, minor := ['0'], patch := ['0'],
                     prerelease := [], build := [] }
      | '.' :: v =>
        match parseInt v with
        | none => none
        | some (minor, v) =>
          match v with
          | [] => some { major := major, minor := minor, patch := ['0'],
                         prerelease := [], build := [] }
          | '.' :: v =>
            match parseInt v with
            | none => none
            | some (patch, v) => parseTail major minor patch v
          | _ => none
      | _ => none
  | _ => none

/-- Go's `x < y` on strings: lexicographic on the bytes. -/
def strLt : List Char → List Char → Bool
  | [], [] => false
  | [], _ :: _ => true
  | _ :: _, [] => false
  | a :: as, b :: bs => decide (a < b) || (a == b && strLt as bs)

/-- The function `compareInt`. -/
def compareInt (x y : List Char) : Int :=
  if x = y then 0
  else if x.length < y.length then -1
  else if x.length > y.length then 1
  else if strLt x y then -1 else 1

/-- The function `nextIdent`: up to the next `.`, and the rest. -/
def nextIdent (x : List Char) : List Char × List Char :=
  (x.takeWhile (fun c => c != '.'), x.dropWhile (fun c => c != '.'))

/-- The loop of `comparePrerelease`; each round drops at least one character
of `x`, so `fuel = x.length + 1` is never exhausted. -/
def comparePrereleaseLoop : Nat → List Char → List Char → Int
  | 0, _, _ => 0
  | fuel + 1, x, y =>
    if x != [] && y != [] then
      let (dx, x1) := nextIdent x.tail
      let (dy, y1) := nextIdent y.tail
      if dx != dy then
        let ix := isNum dx
        let iy := isNum dy
        if ix != iy then (if ix then -1 else 1)
        else if ix && decide (dx.length < dy.length) then -1
        else if ix && decide (dx.length > dy.length) then 1
        else if strLt dx dy then -1 else 1
      else comparePrereleaseLoop fuel x1 y1
    else if x = [] then -1 else 1

/-- The function `comparePrerelease`. -/
def comparePrerelease (x y : List Char) : Int :=
  if x = y then 0
  else if x = [] then 1
  else if y = [] then -1
  else comparePrereleaseLoop (x.length + 1) x y

/-- The function `semver.Compare`: an invalid version is below every valid one
and equal to every invalid one. -/
def Compare (v w : String) : Int :=
  match parse v.data, parse w.data with
  | none, none => 0
  | none, some _ => -1
  | some _, none => 1
  | some pv, some pw =>
    if compareInt pv.major pw.major != 0 then compareInt pv.major pw.major
    else if compareInt pv.minor pw.minor != 0 then compareInt pv.minor pw.minor
    else if compareInt pv.patch pw.patch != 0 then compareInt pv.patch pw.patch
    else comparePrerelease pv.prerelease pw.prerelease

end semver

/-! ## Calls, events and the environment -/

/-- The closures registered in the cleanup registry by `NewSandbox`, named by
the span each one opens (the files closure opens none). -/
inductive CleanupFn where
  | networkSlotClean
  | filesClean
  | rootfsOverlayClose
  | uffdStop
  | fcUffdStop
  | dnsProxyRemove
  deriving DecidableEq, Repr

/-- The calls to collaborators made by the constructor, by the cleanup
closures, by `Wait` and by `Snapshot`. -/
inductive Call where
  -- NewSandbox
  | getTemplate | networkGet | newSandboxFiles | templateRootfs | newCowDevice
  | rootfsStart | templateMemfile | uffdNew | uffdStart | templateSnapfile | fcNewProcess
  | fcStart | initEnvd | syncOldEnvd | dnsAdd | proxyAddSandbox
  -- cleanup closures
  | networkReturn | cleanupFiles | rootfsClose | uffdStop | fcStop | healthcheckCancel
  | dnsRemove | proxyRemoveSandbox
  -- Wait
  | recvProcessExit | recvUffdExit
  -- Snapshot
  | uuidParse | fcPause | uffdDisable | fcCreateSnapshot | uffdDirty | openMemfile
  | newMemfileDiffFile | createDiff | removeFullSnapshot | releaseLock | newLocalSnapfile
  | rootfsPath | openRootfs | ioctlFlush | fsync | fileSync | fileClose
  | newRootfsDiffFile | rootfsExport | rootfsToDiff | memfileToDiff
  deriving DecidableEq, Repr

/-- The background tasks started with `go`. -/
inductive Goroutine where
  | overlayLoop
  | uffdExitWatcher
  | healthLoop
  deriving DecidableEq, Repr

/-- One step of an execution. `call c ok` is a call to a collaborator and
whether it returned without error (for a receive from an exit channel: whether
the value received is nil). -/
inductive Event where
  | call (c : Call) (ok : Bool)
  | add (f : CleanupFn)
  | addPriority (f : CleanupFn)
  | spawn (g : Goroutine)
  | healthyStore (b : Bool)
  | zapError
  | reportError
  | callStop
  deriving DecidableEq, Repr

/-- The 128-bit identifier `uuid.UUID`. -/
abbrev UUID := Nat

/-- Modelled from the spec: the declaration of `header.Metadata` is in
`packages/shared/pkg/storage/header`, not under src. Fields and their order
follow the spec's "Persisted artifacts": version, generation, block size, size,
build id, base build id, all unsigned. -/
structure Metadata where
  Version : Nat
  Generation : Nat
  BlockSize : Nat
  Size : Nat
  BuildId : UUID
  BaseBuildId : UUID
  deriving DecidableEq, Repr

/-- What the collaborators return. `none` is a nil error. -/
structure Env where
  -- NewSandbox
  envdVersion : String
  getTemplate : Option GoError
  networkGet : Option GoError
  templateRootfs : Option GoError
  newCowDevice : Option GoError
  /-- What the background call `rootfsOverlay.Start(childCtx)` returns. -/
  overlayStart : Option GoError
  templateMemfile : Option GoError
  uffdNew : Option GoError
  uffdStart : Option GoError
  templateSnapfile : Option GoError
  fcNewProcess : Option GoError
  fcStart : Option GoError
  initEnvd : Option GoError
  syncOldEnvd : Option GoError
  -- cleanup closures
  networkReturn : Option GoError
  cleanupFiles : Option GoError
  /-- What `fcUffd.Stop()` returns, by the number of earlier calls of it. -/
  uffdStop : Nat → Option GoError
  fcStop : Option GoError
  -- Wait
  /-- The value received from `s.process.Exit`. -/
  processExit : Option GoError
  /-- The value the pager sends on `fcUffd.Exit`, forwarded to `s.uffdExit` by
  the watcher goroutine. -/
  uffdExit : Option GoError
  -- Snapshot
  /-- Width in bits of the unsigned type of `Metadata.Generation`; the
  declaration of the type is not under src, the spec gives it as u32. -/
  generationBits : Nat
  uuidParse : Except GoError UUID
  snapMemfile : Except GoError Metadata
  fcPause : Option GoError
  uffdDisable : Option GoError
  fcCreateSnapshot : Option GoError
  openMemfile : Option GoError
  newMemfileDiffFile : Option GoError
  createDiff : Option GoError
  newLocalSnapfile : Option GoError
  snapRootfs : Except GoError Metadata
  rootfsPath : Option GoError
  openRootfs : Option GoError
  ioctlFlush : Option GoError
  fsync : Option GoError
  fileSync : Option GoError
  fileClose : Option GoError
  newRootfsDiffFile : Option GoError
  /-- Whether `CowDevice.Export` invokes the `stop` callback it is given. -/
  exportCallsStop : Bool
  rootfsExport : Option GoError
  rootfsToDiff : Option GoError
  memfileToDiff : Option GoError

/-- The collaborator calls of a trace, in order, whatever they returned. -/
def callsOf (tr : List Event) : List Call :=
  tr.filterMap fun e => match e with
    | .call c _ => some c
    | _ => none

/-! ## The cleanup registry -/

/-- Modelled from the spec: the type `Cleanup` (cleanup.go) is not under src.
"Two ordered lists: priority (runs first, in FIFO) and normal (runs in LIFO)";
`drained` is the "terminal drained state" that `Run` moves the registry to. -/
structure Cleanup where
  cleanup : List CleanupFn
  priorityCleanup : List CleanupFn
  drained : Bool
  deriving DecidableEq, Repr

/-- Modelled from the spec: `NewCleanup()` (cleanup.go, not under src), the
empty registry. -/
def NewCleanup : Cleanup := { cleanup := [], priorityCleanup := [], drained := false }

/-- Modelled from the spec: `Cleanup.Add` (cleanup.go, not under src), "add(action)":
the action becomes the last normal entry. -/
def Cleanup.Add (c : Cleanup) (f : CleanupFn) : Cleanup :=
  { c with cleanup := c.cleanup ++ [f] }

/-- Modelled from the spec: `Cleanup.AddPriority` (cleanup.go, not under src),
"add_priority(action)": the action becomes the last priority entry. -/
def Cleanup.AddPriority (c : Cleanup) (f : CleanupFn) : Cleanup :=
  { c with priorityCleanup := c.priorityCleanup ++ [f] }

/-- The state the code acts on: the registry, the fields of the `Sandbox`
struct that change (`healthy`, `healthcheckCtx`), the state of the two
processes, and the trace of what was done. -/
structure World where
  cleanup : Cleanup
  healthy : Bool
  healthcheckCancelled : Bool
  vmPaused : Bool
  uffdDisabled : Bool
  trace : List Event
  deriving DecidableEq, Repr

def World.init : World :=
  { cleanup := NewCleanup, healthy := false, healthcheckCancelled := false,
    vmPaused := false, uffdDisabled := false, trace := [] }

def World.log (w : World) (e : Event) : World := { w with trace := w.trace ++ [e] }

/-- The call `cleanup.Add(f)`. -/
def World.Add (w : World) (f : CleanupFn) : World :=
  { w with cleanup := w.cleanup.Add f, trace := w.trace ++ [.add f] }

/-- The call `cleanup.AddPriority(f)`. -/
def World.AddPriority (w : World) (f : CleanupFn) : World :=
  { w with cleanup := w.cleanup.AddPriority f, trace := w.trace ++ [.addPriority f] }

/-- The body of each registered closure (lines 129-139, 144-151, 172-179,
204-214, 284-305, 335-343). -/
def CleanupFn.exec (env : Env) (f : CleanupFn) (w : World) : World × Option GoError :=
  match f with
  | .networkSlotClean =>
    match env.networkReturn with
    | some returnErr =>
      (w.log (.call .networkReturn false),
        some (fmtErrorf "failed to return network slot" returnErr))
    | none => (w.log (.call .networkReturn true), none)
  | .filesClean =>
    match env.cleanupFiles with
    | some filesErr =>
      (w.log (.call .cleanupFiles false), some (fmtErrorf "failed to cleanup files" filesErr))
    | none => (w.log (.call .cleanupFiles true), none)
  | .rootfsOverlayClose => (w.log (.call .rootfsClose true), none)
  | .uffdStop =>
    match env.uffdStop ((callsOf w.trace).count .uffdStop) with
    | some stopErr =>
      (w.log (.call .uffdStop false), some (fmtErrorf "failed to stop uffd" stopErr))
    | none => (w.log (.call .uffdStop true), none)
  | .fcUffdStop =>
    let fcStopErr := env.fcStop
    let w := w.log (.call .fcStop fcStopErr.isNone)
    let errs : List (Option GoError) :=
      match fcStopErr with
      | some e => [some (fmtErrorf "failed to stop FC" e)]
      | none => []
    let uffdStopErr := env.uffdStop ((callsOf w.trace).count .uffdStop)
    let w := w.log (.call .uffdStop uffdStopErr.isNone)
    let errs : List (Option GoError) :=
      match uffdStopErr with
      | some e => errs ++ [some (fmtErrorf "failed to stop uffd" e)]
      | none => errs
    let w := { w.log (.call .healthcheckCancel true) with healthcheckCancelled := true }
    (w, errorsJoin errs)
  | .dnsProxyRemove =>
    ((w.log (.call .dnsRemove true)).log (.call .proxyRemoveSandbox true), none)

/-- Run the given closures in the given order, keeping every result. -/
def runEntries (env : Env) : List CleanupFn → World → World × List (Option GoError)
  | [], w => (w, [])
  | f :: fs, w =>
    let r := f.exec env w
    let rest := runEntries env fs r.1
    (rest.1, r.2 :: rest.2)

/-- Modelled from the spec: `Cleanup.Run` (cleanup.go, not under src). "Execute
priority entries in insertion order, then normal entries in reverse insertion
order; accumulate all errors and return their join. run is idempotent - a
second call is a no-op success." -/
def Cleanup.Run (env : Env) (w : World) : World × Option GoError :=
  if w.cleanup.drained then (w, none)
  else
    let w0 := { w with cleanup := { w.cleanup with drained := true } }
    let p := runEntries env w.cleanup.priorityCleanup w0
    let n := runEntries env w.cleanup.cleanup.reverse p.1
    (n.1, errorsJoin (p.2 ++ n.2))

/-! ## The constructor -/

/-- What `NewSandbox` returns: whether the `*Sandbox` is non-nil, the error, and
the world, whose `cleanup` is the returned `*Cleanup`. -/
structure NewSandboxResult where
  sbx : Bool
  err : Option GoError
  world : World

/-- The goroutine of lines 181-186: run the overlay's servicing loop and, when
it returns an error, hand that error to the logger. -/
def overlayLoop (env : Env) : List Event :=
  match env.overlayStart with
  | some _ => [.call .rootfsStart false, .zapError]
  | none => [.call .rootfsStart true]

/-- The function `NewSandbox` (lines 86-348). Spans, contexts and their cancel
functions and `telemetry.ReportEvent` calls are left out; `telemetry.ReportError`
is kept. -/
def NewSandbox (env : Env) : NewSandboxResult :=
  let w := World.init
  match env.getTemplate with
  | some err =>
    ⟨false, some (fmtErrorf "failed to get template snapshot data" err),
      w.log (.call .getTemplate false)⟩
  | none =>
  let w := w.log (.call .getTemplate true)
  match env.networkGet with
  | some err =>
    ⟨false, some (fmtErrorf "failed to get network slot" err), w.log (.call .networkGet false)⟩
  | none =>
  let w := w.log (.call .networkGet true)
  let w := w.Add .networkSlotClean
  let w := w.log (.call .newSandboxFiles true)
  let w := w.Add .filesClean
  match env.templateRootfs with
  | some err =>
    ⟨false, some (fmtErrorf "failed to get rootfs" err), w.log (.call .templateRootfs false)⟩
  | none =>
  let w := w.log (.call .templateRootfs true)
  match env.newCowDevice with
  | some err =>
    ⟨false, some (fmtErrorf "failed to create overlay file" err),
      w.log (.call .newCowDevice false)⟩
  | none =>
  let w := w.log (.call .newCowDevice true)
  let w := w.Add .rootfsOverlayClose
  let w := w.log (.spawn .overlayLoop)
  match env.templateMemfile with
  | some err =>
    ⟨false, some (fmtErrorf "failed to get memfile" err), w.log (.call .templateMemfile false)⟩
  | none =>
  let w := w.log (.call .templateMemfile true)
  match env.uffdNew with
  | some uffdErr =>
    ⟨false, some (fmtErrorf "failed to create uffd" uffdErr), w.log (.call .uffdNew false)⟩
  | none =>
  let w := w.log (.call .uffdNew true)
  match env.uffdStart with
  | some uffdStartErr =>
    ⟨false, some (fmtErrorf "failed to start uffd" uffdStartErr),
      w.log (.call .uffdStart false)⟩
  | none =>
  let w := w.log (.call .uffdStart true)
  let w := w.Add .uffdStop
  let w := w.log (.spawn .uffdExitWatcher)
  match env.templateSnapfile with
  | some err =>
    ⟨false, some (fmtErrorf "failed to get snapfile" err), w.log (.call .templateSnapfile false)⟩
  | none =>
  let w := w.log (.call .templateSnapfile true)
  match env.fcNewProcess with
  | some fcErr =>
    ⟨false, some (fmtErrorf "failed to create FC" fcErr), w.log (.call .fcNewProcess false)⟩
  | none =>
  let w := w.log (.call .fcNewProcess true)
  match env.fcStart with
  | some fcStartErr =>
    ⟨false, some (fmtErrorf "failed to start FC" fcStartErr), w.log (.call .fcStart false)⟩
  | none =>
  let w := w.log (.call .fcStart true)
  let w := { w.log (.healthyStore true) with healthy := true }
  let w := w.AddPriority .fcUffdStop
  if 0 ≤ semver.Compare ("v" ++ env.envdVersion) "v0.1.1" then
    match env.initEnvd with
    | some initErr =>
      ⟨false, some (fmtErrorf "failed to init new envd" initErr), w.log (.call .initEnvd false)⟩
    | none =>
    let w := w.log (.call .initEnvd true)
    let w := w.log (.call .dnsAdd true)
    let w := w.log (.call .proxyAddSandbox true)
    let w := w.Add .dnsProxyRemove
    let w := w.log (.spawn .healthLoop)
    ⟨true, none, w⟩
  else
    let w :=
      match env.syncOldEnvd with
      | some _ => (w.log (.call .syncOldEnvd false)).log .reportError
      | none => w.log (.call .syncOldEnvd true)
    let w := w.log (.call .dnsAdd true)
    let w := w.log (.call .proxyAddSandbox true)
    let w := w.Add .dnsProxyRemove
    let w := w.log (.spawn .healthLoop)
    ⟨true, none, w⟩

/-! ## Wait and Stop -/

/-- The method `Sandbox.Stop` (lines 365-372). -/
def Sandbox.Stop (env : Env) (w : World) : World × Option GoError :=
  let r := Cleanup.Run env w
  match r.2 with
  | some err => (r.1, some (fmtErrorf "failed to stop sandbox" err))
  | none => (r.1, none)

/-- The method `Sandbox.Wait` (lines 350-363). Both exit channels deliver a
value; `processFirst` says which case of the `select` is taken. A call of
`s.Stop` is marked in the trace by `callStop`. -/
def Sandbox.Wait (env : Env) (processFirst : Bool) (w : World) : World × Option GoError :=
  if processFirst then
    let fcErr := env.processExit
    let w := w.log (.call .recvProcessExit fcErr.isNone)
    let r := Sandbox.Stop env (w.log .callStop)
    let stopErr := r.2
    let uffdErr := env.uffdExit
    let w := r.1.log (.call .recvUffdExit uffdErr.isNone)
    (w, errorsJoin [fcErr, stopErr, uffdErr])
  else
    let uffdErr := env.uffdExit
    let w := w.log (.call .recvUffdExit uffdErr.isNone)
    let r := Sandbox.Stop env (w.log .callStop)
    let stopErr := r.2
    let fcErr := env.processExit
    let w := r.1.log (.call .recvProcessExit fcErr.isNone)
    (w, errorsJoin [uffdErr, stopErr, fcErr])

/-! ## Snapshot -/

/-- Addition on the unsigned integers of the given width. -/
def uintAdd (bits a b : Nat) : Nat := (a + b) % 2 ^ bits

/-- The struct `Snapshot` (lines 587-593), reduced to the metadata of its two
headers; mappings, diffs and the snapfile are built by other packages and are
not modelled. -/
structure Snapshot where
  MemfileDiffHeader : Metadata
  RootfsDiffHeader : Metadata
  deriving DecidableEq, Repr

/-- What `Sandbox.Snapshot` returns, and the world it leaves. -/
structure SnapshotResult where
  snapshot : Option Snapshot
  err : Option GoError
  world : World

/-- Lines 419-585 of `Sandbox.Snapshot`: what follows the `defer` of line 417. -/
def Sandbox.snapshotDeferred (env : Env) (buildId : UUID) (memfileMetadata : Metadata)
    (w : World) : SnapshotResult :=
  match env.fcCreateSnapshot with
  | some err =>
    ⟨none, some (fmtErrorf "error creating snapshot" err), w.log (.call .fcCreateSnapshot false)⟩
  | none =>
  let w := w.log (.call .fcCreateSnapshot true)
  let w := w.log (.call .uffdDirty true)
  match env.openMemfile with
  | some err =>
    ⟨none, some (fmtErrorf "failed to open memfile" err), w.log (.call .openMemfile false)⟩
  | none =>
  let w := w.log (.call .openMemfile true)
  match env.newMemfileDiffFile with
  | some err =>
    ⟨none, some (fmtErrorf "failed to create memfile diff file" err),
      w.log (.call .newMemfileDiffFile false)⟩
  | none =>
  let w := w.log (.call .newMemfileDiffFile true)
  match env.createDiff with
  | some err =>
    ⟨none, some (fmtErrorf "failed to create memfile diff" err), w.log (.call .createDiff false)⟩
  | none =>
  let w := w.log (.call .createDiff true)
  let w := w.log (.call .removeFullSnapshot true)
  let w := w.log (.call .releaseLock true)
  match env.newLocalSnapfile with
  | some err =>
    ⟨none, some (fmtErrorf "failed to create local snapfile" err),
      w.log (.call .newLocalSnapfile false)⟩
  | none =>
  let w := w.log (.call .newLocalSnapfile true)
  match env.snapRootfs with
  | .error err =>
    ⟨none, some (fmtErrorf "failed to get original rootfs" err),
      w.log (.call .templateRootfs false)⟩
  | .ok originalRootfs =>
  let w := w.log (.call .templateRootfs true)
  let rootfsMetadata : Metadata :=
    { Version := 1
      Generation := uintAdd env.generationBits originalRootfs.Generation 1
      BlockSize := originalRootfs.BlockSize
      Size := originalRootfs.Size
      BuildId := buildId
      BaseBuildId := originalRootfs.BaseBuildId }
  match env.rootfsPath with
  | some err =>
    ⟨none, some (fmtErrorf "failed to get rootfs path" err), w.log (.call .rootfsPath false)⟩
  | none =>
  let w := w.log (.call .rootfsPath true)
  match env.openRootfs with
  | some err =>
    ⟨none, some (fmtErrorf "failed to open rootfs path" err), w.log (.call .openRootfs false)⟩
  | none =>
  let w := w.log (.call .openRootfs true)
  match env.ioctlFlush with
  | some err =>
    ⟨none, some (fmtErrorf "ioctl BLKFLSBUF failed" err), w.log (.call .ioctlFlush false)⟩
  | none =>
  let w := w.log (.call .ioctlFlush true)
  match env.fsync with
  | some err =>
    ⟨none, some (fmtErrorf "failed to fsync rootfs path" err), w.log (.call .fsync false)⟩
  | none =>
  let w := w.log (.call .fsync true)
  match env.fileSync with
  | some err =>
    ⟨none, some (fmtErrorf "failed to sync rootfs path" err), w.log (.call .fileSync false)⟩
  | none =>
  let w := w.log (.call .fileSync true)
  match env.fileClose with
  | some err =>
    ⟨none, some (fmtErrorf "nbd file closing failed" err), w.log (.call .fileClose false)⟩
  | none =>
  let w := w.log (.call .fileClose true)
  match env.newRootfsDiffFile with
  | some err =>
    ⟨none, some (fmtErrorf "failed to create rootfs diff" err),
      w.log (.call .newRootfsDiffFile false)⟩
  | none =>
  let w := w.log (.call .newRootfsDiffFile true)
  let w := if env.exportCallsStop then (Sandbox.Stop env (w.log .callStop)).1 else w
  match env.rootfsExport with
  | some err =>
    ⟨none, some (fmtErrorf "failed to export rootfs" err), w.log (.call .rootfsExport false)⟩
  | none =>
  let w := w.log (.call .rootfsExport true)
  match env.rootfsToDiff with
  | some err =>
    ⟨none, some (fmtErrorf "failed to convert rootfs diff file to local diff" err),
      w.log (.call .rootfsToDiff false)⟩
  | none =>
  let w := w.log (.call .rootfsToDiff true)
  match env.memfileToDiff with
  | some err =>
    ⟨none, some (fmtErrorf "failed to convert memfile diff file to local diff" err),
      w.log (.call .memfileToDiff false)⟩
  | none =>
  let w := w.log (.call .memfileToDiff true)
  ⟨some { MemfileDiffHeader := memfileMetadata, RootfsDiffHeader := rootfsMetadata }, none, w⟩

/-- The method `Sandbox.Snapshot` (lines 374-585). A hypervisor whose `Pause`
fails stays running and a pager whose `Disable` fails stays enabled. The
removal deferred at line 417 runs at every return after it. -/
def Sandbox.Snapshot (env : Env) (w : World) : SnapshotResult :=
  match env.uuidParse with
  | .error err =>
    ⟨none, some (fmtErrorf "failed to parse build id" err), w.log (.call .uuidParse false)⟩
  | .ok buildId =>
  let w := w.log (.call .uuidParse true)
  match env.snapMemfile with
  | .error err =>
    ⟨none, some (fmtErrorf "failed to get original memfile" err),
      w.log (.call .templateMemfile false)⟩
  | .ok originalMemfile =>
  let w := w.log (.call .templateMemfile true)
  let memfileMetadata : Metadata :=
    { Version := 1
      Generation := uintAdd env.generationBits originalMemfile.Generation 1
      BlockSize := originalMemfile.BlockSize
      Size := originalMemfile.Size
      BuildId := buildId
      BaseBuildId := originalMemfile.BaseBuildId }
  let w := { w.log (.call .healthcheckCancel true) with healthcheckCancelled := true }
  match env.fcPause with
  | some err =>
    ⟨none, some (fmtErrorf "error pausing vm" err), w.log (.call .fcPause false)⟩
  | none =>
  let w := { w.log (.call .fcPause true) with vmPaused := true }
  match env.uffdDisable with
  | some err =>
    ⟨none, some (fmtErrorf "failed to disable uffd" err), w.log (.call .uffdDisable false)⟩
  | none =>
  let w := { w.log (.call .uffdDisable true) with uffdDisabled := true }
  let r := Sandbox.snapshotDeferred env buildId memfileMetadata w
  { r with world := r.world.log (.call .removeFullSnapshot true) }

/-! ## A reference environment -/

/-- The environment in which every call succeeds: envd 0.1.1, generation-0
parent headers with the block sizes and sizes of the spec's cold-start
scenario, generation stored in 32 bits. -/
def Env.ok : Env :=
  { envdVersion := "0.1.1"
    getTemplate := none, networkGet := none, templateRootfs := none, newCowDevice := none
    overlayStart := none, templateMemfile := none, uffdNew := none, uffdStart := none
    templateSnapfile := none, fcNewProcess := none, fcStart := none, initEnvd := none
    syncOldEnvd := none, networkReturn := none, cleanupFiles := none
    uffdStop := fun _ => none, fcStop := none, processExit := none, uffdExit := none
    generationBits := 32
    uuidParse := .ok 7
    snapMemfile := .ok { Version := 1, Generation := 0, BlockSize := 4096, Size := 134217728,
                         BuildId := 5, BaseBuildId := 5 }
    fcPause := none, uffdDisable := none, fcCreateSnapshot := none, openMemfile := none
    newMemfileDiffFile := none, createDiff := none, newLocalSnapfile := none
    snapRootfs := .ok { Version := 1, Generation := 0, BlockSize := 2097152,
                        Size := 1073741824, BuildId := 5, BaseBuildId := 5 }
    rootfsPath := none, openRootfs := none, ioctlFlush := none, fsync := none
    fileSync := none, fileClose := none, newRootfsDiffFile := none
    exportCallsStop := true, rootfsExport := none, rootfsToDiff := none
    memfileToDiff := none }

/-! ## Vocabulary of the statements -/

/-- The calls made between world `w0` and the later world `w1`. -/
def callsSince (w0 w1 : World) : List Call :=
  (callsOf w1.trace).drop (callsOf w0.trace).length

/-- The collaborator calls made by the body of each closure, in order
(read off `CleanupFn.exec`, see `exec_trace`). -/
def CleanupFn.calls : CleanupFn → List Call
  | .networkSlotClean => [.networkReturn]
  | .filesClean => [.cleanupFiles]
  | .rootfsOverlayClose => [.rootfsClose]
  | .uffdStop => [.uffdStop]
  | .fcUffdStop => [.fcStop, .uffdStop, .healthcheckCancel]
  | .dnsProxyRemove => [.dnsRemove, .proxyRemoveSandbox]

/-- The calls a run of the registry makes: priority entries in insertion order,
then normal entries in reverse insertion order. -/
def Cleanup.calls (c : Cleanup) : List Call :=
  c.priorityCleanup.flatMap CleanupFn.calls ++ c.cleanup.reverse.flatMap CleanupFn.calls

/-- The resources `NewSandbox` obtains. -/
inductive Resource where
  | networkSlot
  | sandboxFiles
  | rootfsOverlay
  | pager
  | hypervisor
  deriving DecidableEq, Repr

/-- The call that constructs the resource. -/
def Resource.constructedBy : Resource → Call
  | .networkSlot => .networkGet
  | .sandboxFiles => .newSandboxFiles
  | .rootfsOverlay => .newCowDevice
  | .pager => .uffdNew
  | .hypervisor => .fcNewProcess

/-- The call after which the resource is in use: the `Start` of the pager and
of the hypervisor, the constructing call of the others. -/
def Resource.startedBy : Resource → Call
  | .pager => .uffdStart
  | .hypervisor => .fcStart
  | r => r.constructedBy

/-- The call that releases the resource. -/
def Resource.releasedBy : Resource → Call
  | .networkSlot => .networkReturn
  | .sandboxFiles => .cleanupFiles
  | .rootfsOverlay => .rootfsClose
  | .pager => .uffdStop
  | .hypervisor => .fcStop

/-- Whether closure `f` releases resource `r`. -/
def CleanupFn.undoes (f : CleanupFn) (r : Resource) : Bool :=
  f.calls.contains r.releasedBy

/-- Whether the registry holds an entry that releases `r`. -/
def Cleanup.hasUndo (c : Cleanup) (r : Resource) : Bool :=
  (c.cleanup ++ c.priorityCleanup).any fun f => f.undoes r

/-- The calls whose error `NewSandbox` inspects. -/
def Call.fallible : Call → Bool
  | .getTemplate | .networkGet | .templateRootfs | .newCowDevice | .templateMemfile
  | .uffdNew | .uffdStart | .templateSnapfile | .fcNewProcess | .fcStart
  | .initEnvd | .syncOldEnvd => true
  | _ => false

def Event.isFallibleCall : Event → Bool
  | .call c _ => c.fallible
  | _ => false

def Event.registers (r : Resource) : Event → Bool
  | .add f => f.undoes r
  | .addPriority f => f.undoes r
  | _ => false

/-- Whether, in trace `tr`, the first successful call of `c` (when there is one)
is followed by the registration of an undo of `r` with no fallible call in
between. -/
def undoRegisteredRightAfter (c : Call) (r : Resource) (tr : List Event) : Bool :=
  match tr.dropWhile (fun e => e != .call c true) with
  | [] => true
  | _ :: rest => (rest.takeWhile fun e => !e.isFallibleCall).any (Event.registers r)

/-- Whether call `c` was made and returned without error. -/
def succeeded (c : Call) (tr : List Event) : Bool := tr.contains (.call c true)

def allResources : List Resource :=
  [.networkSlot, .sandboxFiles, .rootfsOverlay, .pager, .hypervisor]

/-- Every call before the hypervisor's `Start` returns without error. -/
def Env.reachesFcStart (env : Env) : Bool :=
  env.getTemplate.isNone && env.networkGet.isNone && env.templateRootfs.isNone &&
    env.newCowDevice.isNone && env.templateMemfile.isNone && env.uffdNew.isNone &&
    env.uffdStart.isNone && env.templateSnapfile.isNone && env.fcNewProcess.isNone

/-- Every call before the envd handshake returns without error. -/
def Env.reachesHandshake (env : Env) : Bool :=
  env.reachesFcStart && env.fcStart.isNone

/-- The exit value `Wait` receives first. -/
def firstExit (env : Env) (processFirst : Bool) : Option GoError :=
  if processFirst then env.processExit else env.uffdExit

/-- The exit value `Wait` drains after `Stop`. -/
def otherExit (env : Env) (processFirst : Bool) : Option GoError :=
  if processFirst then env.uffdExit else env.processExit

/-- The receive that fires the `select` of `Wait`. -/
def firstRecv (env : Env) (processFirst : Bool) : Event :=
  if processFirst then .call .recvProcessExit env.processExit.isNone
  else .call .recvUffdExit env.uffdExit.isNone

/-- The receive `Wait` makes after `Stop`. -/
def otherRecv (env : Env) (processFirst : Bool) : Event :=
  if processFirst then .call .recvUffdExit env.uffdExit.isNone
  else .call .recvProcessExit env.processExit.isNone

/-- Every fallible call of `Snapshot` other than the build-id parse and the two
header reads returns without error. -/
def Env.snapshotCallsSucceed (env : Env) : Bool :=
  env.fcPause.isNone && env.uffdDisable.isNone && env.fcCreateSnapshot.isNone &&
    env.openMemfile.isNone && env.newMemfileDiffFile.isNone && env.createDiff.isNone &&
    env.newLocalSnapfile.isNone && env.rootfsPath.isNone && env.openRootfs.isNone &&
    env.ioctlFlush.isNone && env.fsync.isNone && env.fileSync.isNone &&
    env.fileClose.isNone && env.newRootfsDiffFile.isNone && env.rootfsExport.isNone &&
    env.rootfsToDiff.isNone && env.memfileToDiff.isNone

/-! ## Further environments -/

/-- The environment in which call `c` fails and every other call succeeds. -/
def Env.failing (c : Call) : Env :=
  let e : Call → Option GoError := fun d => if d = c then some (.leaf "failed") else none
  { Env.ok with
    getTemplate := e .getTemplate, networkGet := e .networkGet
    templateRootfs := e .templateRootfs, newCowDevice := e .newCowDevice
    templateMemfile := e .templateMemfile, uffdNew := e .uffdNew, uffdStart := e .uffdStart
    templateSnapfile := e .templateSnapfile, fcNewProcess := e .fcNewProcess
    fcStart := e .fcStart, initEnvd := e .initEnvd }

/-- The calls whose error makes `NewSandbox` return an error. -/
def failurePoints : List Call :=
  [.getTemplate, .networkGet, .templateRootfs, .newCowDevice, .templateMemfile, .uffdNew,
    .uffdStart, .templateSnapfile, .fcNewProcess, .fcStart, .initEnvd]

/-- The world `NewSandbox` leaves when call `c` fails. -/
def failureWorld (c : Call) : World := (NewSandbox (Env.failing c)).world

/-- Every call succeeds but the pager's `Start`. -/
def envUffdStartFails : Env := { Env.ok with uffdStart := some (.leaf "listen unix: address in use") }

/-- Every call succeeds but the hypervisor's `Start`. -/
def envFcStartFails : Env := { Env.ok with fcStart := some (.leaf "fc did not boot") }

/-- Every call succeeds but the new envd init (envd 0.1.1). -/
def envInitEnvdFails : Env := { Env.ok with initEnvd := some (.leaf "envd not ready") }

/-- An envd below 0.1.1 whose legacy sync fails. -/
def envLegacySyncFails : Env :=
  { Env.ok with envdVersion := "0.1.0", syncOldEnvd := some (.leaf "sync timed out") }

/-- The overlay's servicing loop returns an error, everything else succeeds,
both processes exit with nil. -/
def envOverlayLoopFails : Env := { Env.ok with overlayStart := some (.leaf "nbd: i/o error") }

/-- Returning the network slot fails, everything else succeeds. -/
def envNetworkReturnFails : Env := { Env.ok with networkReturn := some (.leaf "pool closed") }

/-- The parent memfile header is at the last generation that fits 32 bits. -/
def envMaxGeneration : Env :=
  { Env.ok with
    snapMemfile := .ok { Version := 1, Generation := 4294967295, BlockSize := 4096,
                         Size := 134217728, BuildId := 5, BaseBuildId := 5 } }

/-- The generation is stored in 64 bits and the parent memfile header is at the
last generation that fits. -/
def envMaxGeneration64 : Env :=
  { Env.ok with
    generationBits := 64
    snapMemfile := .ok { Version := 1, Generation := 18446744073709551615, BlockSize := 4096,
                         Size := 134217728, BuildId := 5, BaseBuildId := 5 } }

/-- Every call succeeds but the hypervisor's `Pause`. -/
def envPauseFails : Env := { Env.ok with fcPause := some (.leaf "vm busy") }

/-! ## Lemmas on errors -/

mutual
theorem GoError.beq_refl : ∀ e : GoError, GoError.beq e e = true
  | .leaf a => by simp [GoError.beq]
  | .wrap p a => by simp [GoError.beq, GoError.beq_refl a]
  | .join xs => by simp [GoError.beq, GoError.beqList_refl xs]
theorem GoError.beqList_refl : ∀ es : List GoError, GoError.beqList es es = true
  | [] => by simp [GoError.beqList]
  | x :: xs => by simp [GoError.beqList, GoError.beq_refl x, GoError.beqList_refl xs]
end

theorem GoError.has_self (e : GoError) : GoError.has e e = true := by
  cases e <;> simp [GoError.has, GoError.beq_refl]

theorem GoError.hasAny_of_mem (t : GoError) :
    ∀ es : List GoError, t ∈ es → GoError.hasAny t es = true
  | [], h => by simp at h
  | x :: xs, h => by
    rcases List.mem_cons.mp h with h1 | h1
    · subst h1
      simp [GoError.hasAny, GoError.has_self]
    · simp [GoError.hasAny, GoError.hasAny_of_mem t xs h1]

theorem errorsJoin_eq_none (errs : List (Option GoError)) :
    errorsJoin errs = none ↔ ∀ e ∈ errs, e = none := by
  unfold errorsJoin
  constructor
  · intro h e he
    cases e with
    | none => rfl
    | some x =>
      have hx : x ∈ errs.filterMap id := List.mem_filterMap.mpr ⟨some x, he, rfl⟩
      split at h
      · rename_i heq
        rw [heq] at hx
        simp at hx
      · simp at h
  · intro h
    have hnil : errs.filterMap id = [] := by
      apply List.eq_nil_iff_forall_not_mem.mpr
      intro x hx
      obtain ⟨o, ho, hox⟩ := List.mem_filterMap.mp hx
      have := h o ho
      subst this
      simp at hox
    rw [hnil]

theorem errorsJoin_has (errs : List (Option GoError)) (e : GoError) (he : some e ∈ errs) :
    ∃ r, errorsJoin errs = some r ∧ GoError.has e r = true := by
  have hx : e ∈ errs.filterMap id := List.mem_filterMap.mpr ⟨some e, he, rfl⟩
  unfold errorsJoin
  split
  · rename_i heq
    rw [heq] at hx
    simp at hx
  · rename_i a as heq
    refine ⟨_, rfl, ?_⟩
    rw [← heq]
    simp [GoError.has, GoError.hasAny_of_mem e _ hx]

/-! ## Lemmas on the registry -/

theorem callsOf_append (a b : List Event) : callsOf (a ++ b) = callsOf a ++ callsOf b := by
  simp [callsOf, List.filterMap_append]

/-- The body of a closure only appends to the trace, what it appends are the
calls of `CleanupFn.calls`, and it leaves the registry and the process state
alone. -/
theorem exec_trace (env : Env) (f : CleanupFn) (w : World) :
    ∃ t, (f.exec env w).1.trace = w.trace ++ t ∧ callsOf t = f.calls ∧
      (∀ e ∈ t, ∃ c ok, e = Event.call c ok) ∧
      (f.exec env w).1.cleanup = w.cleanup ∧ (f.exec env w).1.healthy = w.healthy ∧
      (f.exec env w).1.vmPaused = w.vmPaused ∧
      (f.exec env w).1.uffdDisabled = w.uffdDisabled := by
  cases f
  case networkSlotClean =>
    cases h : env.networkReturn <;>
      simp [CleanupFn.exec, h, World.log, callsOf, CleanupFn.calls]
  case filesClean =>
    cases h : env.cleanupFiles <;>
      simp [CleanupFn.exec, h, World.log, callsOf, CleanupFn.calls]
  case rootfsOverlayClose =>
    simp [CleanupFn.exec, World.log, callsOf, CleanupFn.calls]
  case uffdStop =>
    simp only [CleanupFn.exec]
    split <;> simp [World.log, callsOf, CleanupFn.calls]
  case fcUffdStop =>
    refine ⟨[.call .fcStop env.fcStop.isNone, .call .uffdStop
      (env.uffdStop ((callsOf (w.trace ++ [.call .fcStop env.fcStop.isNone])).count
        .uffdStop)).isNone, .call .healthcheckCancel true], ?_, ?_, ?_, ?_⟩
    · simp [CleanupFn.exec, World.log]
    · simp [callsOf, CleanupFn.calls]
    · intro e he
      simp at he
      rcases he with h | h | h <;> exact ⟨_, _, h⟩
    · simp [CleanupFn.exec, World.log]
  case dnsProxyRemove =>
    refine ⟨[.call .dnsRemove true, .call .proxyRemoveSandbox true], ?_, ?_, ?_, ?_⟩
    · simp [CleanupFn.exec, World.log]
    · simp [callsOf, CleanupFn.calls]
    · intro e he
      simp at he
      rcases he with h | h <;> exact ⟨_, _, h⟩
    · simp [CleanupFn.exec, World.log]

theorem runEntries_trace (env : Env) :
    ∀ (fs : List CleanupFn) (w : World),
      ∃ t, (runEntries env fs w).1.trace = w.trace ++ t ∧
        callsOf t = fs.flatMap CleanupFn.calls ∧
        (∀ e ∈ t, ∃ c ok, e = Event.call c ok) ∧
        (runEntries env fs w).1.cleanup = w.cleanup ∧
        (runEntries env fs w).1.healthy = w.healthy ∧
        (runEntries env fs w).1.vmPaused = w.vmPaused ∧
        (runEntries env fs w).1.uffdDisabled = w.uffdDisabled
  | [], w => ⟨[], by simp [runEntries, callsOf]⟩
  | f :: fs, w => by
    obtain ⟨t1, h1, c1, a1, k1, hl1, p1, d1⟩ := exec_trace env f w
    obtain ⟨t2, h2, c2, a2, k2, hl2, p2, d2⟩ := runEntries_trace env fs (f.exec env w).1
    refine ⟨t1 ++ t2, ?_, ?_, ?_, ?_, ?_, ?_, ?_⟩
    · simp [runEntries, h2, h1]
    · simp [callsOf_append, c1, c2]
    · intro e he
      rcases List.mem_append.mp he with h | h
      · exact a1 e h
      · exact a2 e h
    · simp [runEntries, k2, k1]
    · simp [runEntries, hl2, hl1]
    · simp [runEntries, p2, p1]
    · simp [runEntries, d2, d1]

/-- A run of a registry that is not drained appends the calls of its entries,
priority entries first and normal entries in reverse, and drains it. -/
theorem Run_trace (env : Env) (w : World) (hd : w.cleanup.drained = false) :
    ∃ t, (Cleanup.Run env w).1.trace = w.trace ++ t ∧ callsOf t = w.cleanup.calls ∧
      (∀ e ∈ t, ∃ c ok, e = Event.call c ok) ∧
      (Cleanup.Run env w).1.cleanup = { w.cleanup with drained := true } ∧
      (Cleanup.Run env w).1.healthy = w.healthy ∧
      (Cleanup.Run env w).1.vmPaused = w.vmPaused ∧
      (Cleanup.Run env w).1.uffdDisabled = w.uffdDisabled := by
  obtain ⟨t1, h1, c1, a1, k1, hl1, p1, d1⟩ := runEntries_trace env w.cleanup.priorityCleanup
    { w with cleanup := { w.cleanup with drained := true } }
  obtain ⟨t2, h2, c2, a2, k2, hl2, p2, d2⟩ := runEntries_trace env w.cleanup.cleanup.reverse
    (runEntries env w.cleanup.priorityCleanup
      { w with cleanup := { w.cleanup with drained := true } }).1
  refine ⟨t1 ++ t2, ?_, ?_, ?_, ?_, ?_, ?_, ?_⟩
  · simp [Cleanup.Run, hd, h2, h1]
  · simp [callsOf_append, c1, c2, Cleanup.calls]
  · intro e he
    rcases List.mem_append.mp he with h | h
    · exact a1 e h
    · exact a2 e h
  · simp [Cleanup.Run, hd, k2, k1]
  · simp [Cleanup.Run, hd, hl2, hl1]
  · simp [Cleanup.Run, hd, p2, p1]
  · simp [Cleanup.Run, hd, d2, d1]

/-- A run of a drained registry does nothing and returns nil. -/
theorem Run_drained (env : Env) (w : World) (hd : w.cleanup.drained = true) :
    Cleanup.Run env w = (w, none) := by
  simp [Cleanup.Run, hd]

theorem Stop_world (env : Env) (w : World) : (Sandbox.Stop env w).1 = (Cleanup.Run env w).1 := by
  cases h : (Cleanup.Run env w).2 <;> simp [Sandbox.Stop, h]

theorem callsSince_append (w0 w1 : World) (t : List Event) (h : w1.trace = w0.trace ++ t) :
    callsSince w0 w1 = callsOf t := by
  simp [callsSince, h, callsOf_append]

/-- What a run appends to the trace, drained or not. -/
theorem Run_appends (env : Env) (w : World) :
    ∃ t, (Cleanup.Run env w).1.trace = w.trace ++ t ∧
      (∀ e ∈ t, ∃ c ok, e = Event.call c ok) ∧
      callsOf t = (if w.cleanup.drained then [] else w.cleanup.calls) := by
  cases hd : w.cleanup.drained
  · obtain ⟨t, ht, hc, ha, -⟩ := Run_trace env w hd
    exact ⟨t, ht, ha, by simp [hc]⟩
  · exact ⟨[], by simp [Run_drained env w hd], by simp, by simp [callsOf]⟩

/-- The closures do not read what the overlay's servicing loop returned. -/
theorem exec_overlayStart (env : Env) (o : Option GoError) (f : CleanupFn) (w : World) :
    f.exec { env with overlayStart := o } w = f.exec env w := by
  cases f <;> rfl

theorem runEntries_overlayStart (env : Env) (o : Option GoError) :
    ∀ (fs : List CleanupFn) (w : World),
      runEntries { env with overlayStart := o } fs w = runEntries env fs w
  | [], _ => rfl
  | f :: fs, w => by
    simp only [runEntries, exec_overlayStart, runEntries_overlayStart env o fs]

theorem Run_overlayStart (env : Env) (o : Option GoError) (w : World) :
    Cleanup.Run { env with overlayStart := o } w = Cleanup.Run env w := by
  simp only [Cleanup.Run, runEntries_overlayStart]

theorem Stop_overlayStart (env : Env) (o : Option GoError) (w : World) :
    Sandbox.Stop { env with overlayStart := o } w = Sandbox.Stop env w := by
  simp only [Sandbox.Stop, Run_overlayStart]

/-! ## Lemmas on the constructor -/

theorem Run_calls (env : Env) (w : World) (hd : w.cleanup.drained = false) :
    callsSince w (Cleanup.Run env w).1 = w.cleanup.calls := by
  obtain ⟨t, ht, hc, -⟩ := Run_trace env w hd
  rw [callsSince_append w _ t ht, hc]

theorem NewSandbox_not_drained (env : Env) : (NewSandbox env).world.cleanup.drained = false := by
  unfold NewSandbox
  repeat' split
  all_goals rfl

/-- When the constructor returns no error, every inspected call succeeded. -/
theorem NewSandbox_success_env (env : Env) (h : (NewSandbox env).err = none) :
    env.getTemplate = none ∧ env.networkGet = none ∧ env.templateRootfs = none ∧
    env.newCowDevice = none ∧ env.templateMemfile = none ∧ env.uffdNew = none ∧
    env.uffdStart = none ∧ env.templateSnapfile = none ∧ env.fcNewProcess = none ∧
    env.fcStart = none ∧
    (0 ≤ semver.Compare ("v" ++ env.envdVersion) "v0.1.1" → env.initEnvd = none) := by
  unfold NewSandbox at h
  repeat' split at h
  all_goals simp_all

/-- The registry of a sandbox that was returned without error. -/
theorem NewSandbox_success_registry (env : Env) (h : (NewSandbox env).err = none) :
    (NewSandbox env).sbx = true ∧
    (NewSandbox env).world.cleanup =
      { cleanup := [.networkSlotClean, .filesClean, .rootfsOverlayClose, .uffdStop,
          .dnsProxyRemove],
        priorityCleanup := [.fcUffdStop], drained := false } := by
  obtain ⟨h1, h2, h3, h4, h5, h6, h7, h8, h9, h10, h11⟩ := NewSandbox_success_env env h
  by_cases hv : 0 ≤ semver.Compare ("v" ++ env.envdVersion) "v0.1.1"
  · simp [NewSandbox, h1, h2, h3, h4, h5, h6, h7, h8, h9, h10, h11 hv, hv, World.log,
      World.Add, World.AddPriority, World.init, NewCleanup, Cleanup.Add, Cleanup.AddPriority]
  · simp [NewSandbox, h1, h2, h3, h4, h5, h6, h7, h8, h9, h10, hv, World.log,
      World.Add, World.AddPriority, World.init, NewCleanup, Cleanup.Add, Cleanup.AddPriority]
    cases env.syncOldEnvd <;> simp

/-- The world at an error return is determined by the call that failed. -/
theorem NewSandbox_failure_world (env : Env) (h : (NewSandbox env).err ≠ none) :
    ∃ c ∈ failurePoints, (NewSandbox env).world = failureWorld c := by
  revert h
  unfold NewSandbox
  repeat' split
  all_goals first
    | (intro h; exact absurd rfl h)
    | (intro _; dsimp only; decide)

/-! ## C2: what a run of the returned cleanup releases -/

/-- C2, counterexample: when the new envd init fails, `NewSandbox` returns an
error and a registry whose run calls the pager's `Stop` twice (once in the
priority entry, once in the normal entry); and when the pager's `Start` fails,
the pager was constructed but a run of the returned registry does not stop it. -/
theorem cleanup_after_init_failure_stops_pager_twice :
    (NewSandbox envInitEnvdFails).err.isSome = true ∧
    (callsSince (NewSandbox envInitEnvdFails).world
      (Cleanup.Run envInitEnvdFails (NewSandbox envInitEnvdFails).world).1).count .uffdStop = 2 ∧
    (NewSandbox envUffdStartFails).err.isSome = true ∧
    succeeded .uffdNew (NewSandbox envUffdStartFails).world.trace = true ∧
    (callsSince (NewSandbox envUffdStartFails).world
      (Cleanup.Run envUffdStartFails (NewSandbox envUffdStartFails).world).1).count .uffdStop
      = 0 := by
  decide

/-- C2, amended: at every error return of `NewSandbox`, a run of the returned
registry returns the network slot, removes the sandbox files and closes the
rootfs overlay exactly once when the resource had been constructed and not at
all otherwise; it calls the pager's `Stop` once when the pager's `Start` had
succeeded and once more when the hypervisor's `Start` had succeeded (the
priority entry, which also stops the hypervisor, once); it removes no DNS or
proxy entry. -/
theorem cleanup_after_failure_releases (env : Env) (h : (NewSandbox env).err ≠ none) :
    (∀ r ∈ [Resource.networkSlot, Resource.sandboxFiles, Resource.rootfsOverlay],
      (callsSince (NewSandbox env).world
        (Cleanup.Run env (NewSandbox env).world).1).count r.releasedBy =
        if succeeded r.constructedBy (NewSandbox env).world.trace then 1 else 0) ∧
    (callsSince (NewSandbox env).world
        (Cleanup.Run env (NewSandbox env).world).1).count .uffdStop =
      (if succeeded .uffdStart (NewSandbox env).world.trace then 1 else 0) +
        (if succeeded .fcStart (NewSandbox env).world.trace then 1 else 0) ∧
    (callsSince (NewSandbox env).world
        (Cleanup.Run env (NewSandbox env).world).1).count .fcStop =
      (if succeeded .fcStart (NewSandbox env).world.trace then 1 else 0) ∧
    (callsSince (NewSandbox env).world
        (Cleanup.Run env (NewSandbox env).world).1).count .dnsRemove = 0 ∧
    (callsSince (NewSandbox env).world
        (Cleanup.Run env (NewSandbox env).world).1).count .proxyRemoveSandbox = 0 := by
  rw [Run_calls env _ (NewSandbox_not_drained env)]
  obtain ⟨c, hc, hw⟩ := NewSandbox_failure_world env h
  rw [hw]
  clear hw h
  revert c
  decide

/-- C2, amended, at the failure of the new envd init: the pager's `Stop` is
called once for the started pager and once more for the started hypervisor. -/
theorem cleanup_after_failure_releases_witness :
    (NewSandbox envInitEnvdFails).err ≠ none ∧
    (callsSince (NewSandbox envInitEnvdFails).world
        (Cleanup.Run envInitEnvdFails (NewSandbox envInitEnvdFails).world).1).count .uffdStop =
      (if succeeded .uffdStart (NewSandbox envInitEnvdFails).world.trace then 1 else 0) +
        (if succeeded .fcStart (NewSandbox envInitEnvdFails).world.trace then 1 else 0) :=
  ⟨Option.ne_none_iff_isSome.mpr (by decide),
    (cleanup_after_failure_releases envInitEnvdFails
      (Option.ne_none_iff_isSome.mpr (by decide))).2.1⟩

/-! ## C3: when an undo enters the registry -/

/-- C3, counterexample: when the pager's `Start` fails, `NewSandbox` returns an
error, the pager has been constructed, the returned registry holds no entry
that stops the pager, and no such entry was added between the pager's
construction and the next fallible call. -/
theorem pager_start_failure_leaves_no_pager_undo :
    (NewSandbox envUffdStartFails).err.isSome = true ∧
    succeeded .uffdNew (NewSandbox envUffdStartFails).world.trace = true ∧
    (NewSandbox envUffdStartFails).world.cleanup.hasUndo .pager = false ∧
    undoRegisteredRightAfter .uffdNew .pager (NewSandbox envUffdStartFails).world.trace
      = false := by
  decide

/-- C3, amended: in `NewSandbox` the undo of the network slot, of the sandbox
files and of the rootfs overlay is added right after the resource is
constructed, and the undo of the pager and of the hypervisor right after its
`Start` succeeded, each before the next fallible call; so at every error return
the registry holds an undo for a resource exactly when the resource was
constructed (slot, files, overlay) or started (pager, hypervisor). -/
theorem undo_registered_once_started (env : Env) (h : (NewSandbox env).err ≠ none) :
    (∀ r ∈ allResources,
      undoRegisteredRightAfter r.startedBy r (NewSandbox env).world.trace = true) ∧
    (∀ r ∈ allResources,
      (NewSandbox env).world.cleanup.hasUndo r =
        succeeded r.startedBy (NewSandbox env).world.trace) := by
  obtain ⟨c, hc, hw⟩ := NewSandbox_failure_world env h
  rw [hw]
  clear hw h
  revert c
  decide

/-- C3, amended, at the failure of the hypervisor's `Start`: the pager was
started and the registry holds its undo. -/
theorem undo_registered_once_started_witness :
    (NewSandbox envFcStartFails).err ≠ none ∧
    (NewSandbox envFcStartFails).world.cleanup.hasUndo .pager =
      succeeded Resource.pager.startedBy (NewSandbox envFcStartFails).world.trace :=
  ⟨Option.ne_none_iff_isSome.mpr (by decide),
    (undo_registered_once_started envFcStartFails
      (Option.ne_none_iff_isSome.mpr (by decide))).2 .pager (by decide)⟩

/-! ## C4: failure of the hypervisor's Start -/

/-- C4: when every earlier call succeeds and the hypervisor's `Start` returns
the error `e`, `NewSandbox` returns a nil sandbox and the error
`failed to start FC: e`; the returned registry has no priority entry and
exactly four normal entries, and a run of it stops the pager, closes the
rootfs overlay, removes the sandbox files and returns the network slot, in
that order, each once, and makes no other call (no DNS or proxy removal). -/
theorem hypervisor_start_failure_cleanup (env : Env) (e : GoError)
    (hreach : env.reachesFcStart = true) (hfc : env.fcStart = some e) :
    (NewSandbox env).sbx = false ∧
    (NewSandbox env).err = some (fmtErrorf "failed to start FC" e) ∧
    (NewSandbox env).world.cleanup.priorityCleanup = [] ∧
    (NewSandbox env).world.cleanup.cleanup.length = 4 ∧
    (NewSandbox env).world.cleanup.cleanup =
      [.networkSlotClean, .filesClean, .rootfsOverlayClose, .uffdStop] ∧
    callsSince (NewSandbox env).world (Cleanup.Run env (NewSandbox env).world).1 =
      [.uffdStop, .rootfsClose, .cleanupFiles, .networkReturn] := by
  rw [Run_calls env _ (NewSandbox_not_drained env)]
  simp only [Env.reachesFcStart, Bool.and_eq_true, Option.isNone_iff_eq_none] at hreach
  obtain ⟨⟨⟨⟨⟨⟨⟨⟨h1, h2⟩, h3⟩, h4⟩, h5⟩, h6⟩, h7⟩, h8⟩, h9⟩ := hreach
  simp [NewSandbox, h1, h2, h3, h4, h5, h6, h7, h8, h9, hfc, World.log, World.Add,
    World.init, NewCleanup, Cleanup.Add, Cleanup.calls, CleanupFn.calls]

/-- C4 at the environment in which only the hypervisor's `Start` fails. -/
theorem hypervisor_start_failure_cleanup_witness :
    (NewSandbox envFcStartFails).sbx = false ∧
    (NewSandbox envFcStartFails).err =
      some (fmtErrorf "failed to start FC" (.leaf "fc did not boot")) ∧
    (NewSandbox envFcStartFails).world.cleanup.priorityCleanup = [] ∧
    (NewSandbox envFcStartFails).world.cleanup.cleanup.length = 4 ∧
    (NewSandbox envFcStartFails).world.cleanup.cleanup =
      [.networkSlotClean, .filesClean, .rootfsOverlayClose, .uffdStop] ∧
    callsSince (NewSandbox envFcStartFails).world
        (Cleanup.Run envFcStartFails (NewSandbox envFcStartFails).world).1 =
      [.uffdStop, .rootfsClose, .cleanupFiles, .networkReturn] :=
  hypervisor_start_failure_cleanup envFcStartFails (.leaf "fc did not boot") (by decide) rfl

/-! ## C5: the order of teardown -/

/-- C5: for every sandbox that `NewSandbox` returns without error, `Stop` makes
these calls, in this order and no other: stop the hypervisor, stop the pager,
cancel the health context (the priority entry), then remove the DNS entry,
remove the proxy entry, stop the pager, close the rootfs overlay, remove the
sandbox files, return the network slot (the normal entries, last added
first). -/
theorem stop_order_after_NewSandbox (env : Env) (h : (NewSandbox env).err = none) :
    (NewSandbox env).sbx = true ∧
    (NewSandbox env).world.cleanup.priorityCleanup = [.fcUffdStop] ∧
    (NewSandbox env).world.cleanup.cleanup =
      [.networkSlotClean, .filesClean, .rootfsOverlayClose, .uffdStop, .dnsProxyRemove] ∧
    callsSince (NewSandbox env).world (Sandbox.Stop env (NewSandbox env).world).1 =
      [.fcStop, .uffdStop, .healthcheckCancel,
        .dnsRemove, .proxyRemoveSandbox, .uffdStop, .rootfsClose, .cleanupFiles,
        .networkReturn] := by
  obtain ⟨hs, hreg⟩ := NewSandbox_success_registry env h
  rw [Stop_world, Run_calls env _ (NewSandbox_not_drained env), hreg]
  exact ⟨hs, rfl, rfl, rfl⟩

/-- C5 at the environment in which every call succeeds. -/
theorem stop_order_after_NewSandbox_witness :
    (NewSandbox Env.ok).err = none ∧
    callsSince (NewSandbox Env.ok).world (Sandbox.Stop Env.ok (NewSandbox Env.ok).world).1 =
      [.fcStop, .uffdStop, .healthcheckCancel,
        .dnsRemove, .proxyRemoveSandbox, .uffdStop, .rootfsClose, .cleanupFiles,
        .networkReturn] :=
  ⟨rfl, (stop_order_after_NewSandbox Env.ok rfl).2.2.2⟩

/-! ## C9: the envd handshake -/

/-- C9: when the handshake is reached, an envd version that compares >= 0.1.1
gets the new init and not the legacy sync, and an init error makes
`NewSandbox` return that error wrapped and a nil sandbox; any other version
gets the legacy sync and not the new init, and whatever the sync returns,
`NewSandbox` adds the DNS and proxy entries and returns a sandbox with
`healthy = true` and a nil error (a sync error is reported to telemetry). -/
theorem envd_handshake (env : Env) (hreach : env.reachesHandshake = true) :
    (0 ≤ semver.Compare ("v" ++ env.envdVersion) "v0.1.1" →
      (callsOf (NewSandbox env).world.trace).count .initEnvd = 1 ∧
      (callsOf (NewSandbox env).world.trace).count .syncOldEnvd = 0 ∧
      (∀ e, env.initEnvd = some e →
        (NewSandbox env).sbx = false ∧
        (NewSandbox env).err = some (fmtErrorf "failed to init new envd" e))) ∧
    (¬ 0 ≤ semver.Compare ("v" ++ env.envdVersion) "v0.1.1" →
      (callsOf (NewSandbox env).world.trace).count .syncOldEnvd = 1 ∧
      (callsOf (NewSandbox env).world.trace).count .initEnvd = 0 ∧
      succeeded .dnsAdd (NewSandbox env).world.trace = true ∧
      succeeded .proxyAddSandbox (NewSandbox env).world.trace = true ∧
      (NewSandbox env).world.cleanup.cleanup.getLast? = some .dnsProxyRemove ∧
      (NewSandbox env).sbx = true ∧
      (NewSandbox env).world.healthy = true ∧
      (NewSandbox env).err = none ∧
      (env.syncOldEnvd ≠ none → Event.reportError ∈ (NewSandbox env).world.trace)) := by
  simp only [Env.reachesHandshake, Env.reachesFcStart, Bool.and_eq_true,
    Option.isNone_iff_eq_none] at hreach
  obtain ⟨⟨⟨⟨⟨⟨⟨⟨⟨h1, h2⟩, h3⟩, h4⟩, h5⟩, h6⟩, h7⟩, h8⟩, h9⟩, h10⟩ := hreach
  constructor
  · intro hv
    cases hi : env.initEnvd <;>
      simp [NewSandbox, h1, h2, h3, h4, h5, h6, h7, h8, h9, h10, hv, hi, World.log, World.Add,
        World.AddPriority, World.init, callsOf]
  · intro hv
    cases hsync : env.syncOldEnvd <;>
      simp [NewSandbox, h1, h2, h3, h4, h5, h6, h7, h8, h9, h10, hv, hsync, World.log,
        World.Add, World.AddPriority, World.init, callsOf, succeeded, NewCleanup,
        Cleanup.Add, Cleanup.AddPriority]

/-- C9 at envd 0.1.0 with a failing legacy sync: a healthy sandbox and a nil
error are returned. -/
theorem envd_handshake_witness :
    envLegacySyncFails.reachesHandshake = true ∧
    ¬ 0 ≤ semver.Compare ("v" ++ envLegacySyncFails.envdVersion) "v0.1.1" ∧
    (NewSandbox envLegacySyncFails).sbx = true ∧
    (NewSandbox envLegacySyncFails).world.healthy = true ∧
    (NewSandbox envLegacySyncFails).err = none :=
  ⟨by decide, by decide,
    ((envd_handshake envLegacySyncFails (by decide)).2 (by decide)).2.2.2.2.2.1,
    ((envd_handshake envLegacySyncFails (by decide)).2 (by decide)).2.2.2.2.2.2.1,
    ((envd_handshake envLegacySyncFails (by decide)).2 (by decide)).2.2.2.2.2.2.2.1⟩

/-! ## C6: Wait -/

/-- C6: whatever the hypervisor and the pager send on exit, whichever is
received first and whatever the registry holds, `Wait` calls `Stop` exactly
once, after the first receive and before the second (between the two only the
calls of the cleanup closures are made), and returns the join of the first exit
value, the result of `Stop` and the other exit value: nil exactly when all
three are nil, and containing each of the three that is not nil. -/
theorem wait_stops_once_and_joins (env : Env) (processFirst : Bool) (w : World) :
    (∃ t, (Sandbox.Wait env processFirst w).1.trace =
        w.trace ++ [firstRecv env processFirst, .callStop] ++ t ++
          [otherRecv env processFirst] ∧
      (∀ e ∈ t, ∃ c ok, e = Event.call c ok) ∧
      callsOf t = (if w.cleanup.drained then [] else w.cleanup.calls)) ∧
    (Sandbox.Wait env processFirst w).2 =
      errorsJoin [firstExit env processFirst,
        (Sandbox.Stop env ((w.log (firstRecv env processFirst)).log .callStop)).2,
        otherExit env processFirst] ∧
    ((Sandbox.Wait env processFirst w).2 = none ↔
      env.processExit = none ∧ env.uffdExit = none ∧
        (Sandbox.Stop env ((w.log (firstRecv env processFirst)).log .callStop)).2 = none) ∧
    (∀ e, (env.processExit = some e ∨ env.uffdExit = some e ∨
        (Sandbox.Stop env ((w.log (firstRecv env processFirst)).log .callStop)).2 = some e) →
      ∃ r, (Sandbox.Wait env processFirst w).2 = some r ∧ GoError.has e r = true) := by
  have hjoin : (Sandbox.Wait env processFirst w).2 =
      errorsJoin [firstExit env processFirst,
        (Sandbox.Stop env ((w.log (firstRecv env processFirst)).log .callStop)).2,
        otherExit env processFirst] := by
    cases processFirst <;> simp [Sandbox.Wait, firstExit, otherExit, firstRecv]
  refine ⟨?_, hjoin, ?_, ?_⟩
  · obtain ⟨t, ht, ha, hc⟩ :=
      Run_appends env ((w.log (firstRecv env processFirst)).log .callStop)
    refine ⟨t, ?_, ha, by simpa [World.log] using hc⟩
    cases processFirst <;>
      simp [Sandbox.Wait, firstRecv, otherRecv, World.log, Stop_world] at ht ⊢ <;>
      simp [ht, World.log]
  · rw [hjoin, errorsJoin_eq_none]
    cases processFirst <;> simp [firstExit, otherExit] <;> tauto
  · intro e he
    rw [hjoin]
    apply errorsJoin_has
    cases processFirst <;> simp [firstExit, otherExit] <;> tauto

/-- C6 on a freshly built sandbox with the hypervisor's exit received first. -/
theorem wait_stops_once_and_joins_witness :
    (Sandbox.Wait Env.ok true (NewSandbox Env.ok).world).2 = none ↔
      Env.ok.processExit = none ∧ Env.ok.uffdExit = none ∧
        (Sandbox.Stop Env.ok (((NewSandbox Env.ok).world.log (firstRecv Env.ok true)).log
          .callStop)).2 = none :=
  (wait_stops_once_and_joins Env.ok true (NewSandbox Env.ok).world).2.2.1

/-! ## C7: the overlay's servicing loop -/

/-- C7, counterexample: the overlay's servicing loop returns an error (which
the goroutine hands to the logger), `NewSandbox` succeeds, and `Wait` returns
nil, whichever exit is received first. -/
theorem wait_nil_though_overlay_loop_failed :
    envOverlayLoopFails.overlayStart.isSome = true ∧
    overlayLoop envOverlayLoopFails = [.call .rootfsStart false, .zapError] ∧
    (NewSandbox envOverlayLoopFails).err.isNone = true ∧
    (Sandbox.Wait envOverlayLoopFails true (NewSandbox envOverlayLoopFails).world).2.isNone
      = true ∧
    (Sandbox.Wait envOverlayLoopFails false (NewSandbox envOverlayLoopFails).world).2.isNone
      = true := by
  decide

/-- C7, amended: an error returned by the overlay's servicing loop is handed to
the logger by its goroutine and nothing else; `Wait` (its result and the world
it leaves) is the same whatever that loop returned. -/
theorem wait_ignores_overlay_loop (env : Env) (o : Option GoError) (processFirst : Bool)
    (w : World) :
    Sandbox.Wait { env with overlayStart := o } processFirst w =
      Sandbox.Wait env processFirst w ∧
    (o ≠ none → overlayLoop { env with overlayStart := o } =
      [.call .rootfsStart false, .zapError]) := by
  constructor
  · cases processFirst <;> simp only [Sandbox.Wait, Stop_overlayStart]
  · intro ho
    cases o with
    | none => exact absurd rfl ho
    | some e => rfl

/-- C7, amended, on a freshly built sandbox with a failing servicing loop. -/
theorem wait_ignores_overlay_loop_witness :
    Sandbox.Wait { Env.ok with overlayStart := some (.leaf "nbd: i/o error") } true
        (NewSandbox Env.ok).world =
      Sandbox.Wait Env.ok true (NewSandbox Env.ok).world ∧
    overlayLoop { Env.ok with overlayStart := some (.leaf "nbd: i/o error") } =
      [.call .rootfsStart false, .zapError] :=
  ⟨(wait_ignores_overlay_loop Env.ok (some (.leaf "nbd: i/o error")) true
      (NewSandbox Env.ok).world).1,
    (wait_ignores_overlay_loop Env.ok (some (.leaf "nbd: i/o error")) true
      (NewSandbox Env.ok).world).2 (by simp)⟩

/-! ## C8: Stop and Run -/

/-- C8, counterexample: on the registry of a freshly built sandbox, with the
return of the network slot failing, `Run` returns the joined error and `Stop`
returns a different error, the one of `Run` wrapped as
`failed to stop sandbox: ...`. -/
theorem stop_error_differs_from_run_error :
    (Cleanup.Run envNetworkReturnFails (NewSandbox Env.ok).world).2 =
      some (.join [.wrap "failed to return network slot" (.leaf "pool closed")]) ∧
    (Sandbox.Stop envNetworkReturnFails (NewSandbox Env.ok).world).2 =
      some (.wrap "failed to stop sandbox"
        (.join [.wrap "failed to return network slot" (.leaf "pool closed")])) ∧
    (Sandbox.Stop envNetworkReturnFails (NewSandbox Env.ok).world).2 ≠
      (Cleanup.Run envNetworkReturnFails (NewSandbox Env.ok).world).2 := by
  have h1 : (Cleanup.Run envNetworkReturnFails (NewSandbox Env.ok).world).2 =
      some (.join [.wrap "failed to return network slot" (.leaf "pool closed")]) := rfl
  have h2 : (Sandbox.Stop envNetworkReturnFails (NewSandbox Env.ok).world).2 =
      some (.wrap "failed to stop sandbox"
        (.join [.wrap "failed to return network slot" (.leaf "pool closed")])) := rfl
  refine ⟨h1, h2, ?_⟩
  rw [h1, h2]
  simp

/-- C8, amended: for every registry state, `Stop` leaves the same world as
`Run` (it makes the same calls), returns nil exactly when `Run` returns nil,
and when `Run` returns an error returns that error wrapped as
`failed to stop sandbox: <error>`. -/
theorem stop_is_run_with_wrapped_error (env : Env) (w : World) :
    (Sandbox.Stop env w).1 = (Cleanup.Run env w).1 ∧
    ((Sandbox.Stop env w).2 = none ↔ (Cleanup.Run env w).2 = none) ∧
    (∀ err, (Cleanup.Run env w).2 = some err →
      (Sandbox.Stop env w).2 = some (fmtErrorf "failed to stop sandbox" err)) := by
  cases h : (Cleanup.Run env w).2 <;> simp [Sandbox.Stop, h]

/-- C8, amended, with the return of the network slot failing. -/
theorem stop_is_run_with_wrapped_error_witness :
    (Sandbox.Stop envNetworkReturnFails (NewSandbox Env.ok).world).2 =
      some (fmtErrorf "failed to stop sandbox"
        (.join [.wrap "failed to return network slot" (.leaf "pool closed")])) :=
  (stop_is_run_with_wrapped_error envNetworkReturnFails (NewSandbox Env.ok).world).2.2 _ rfl

/-! ## C1: the metadata of a snapshot -/

/-- C1, counterexample: with the generation stored in 32 bits and a parent
memfile header at generation 4294967295, `Snapshot` succeeds and the memfile
header it returns has generation 0, not 4294967296; likewise with 64 bits and
a parent at generation 18446744073709551615. -/
theorem snapshot_generation_wraps :
    ((Sandbox.Snapshot envMaxGeneration (NewSandbox Env.ok).world).snapshot.map
      fun s => s.MemfileDiffHeader.Generation) = some 0 ∧
    ((Sandbox.Snapshot envMaxGeneration (NewSandbox Env.ok).world).snapshot.map
      fun s => s.MemfileDiffHeader.Generation) ≠ some (4294967295 + 1) ∧
    ((Sandbox.Snapshot envMaxGeneration64 (NewSandbox Env.ok).world).snapshot.map
      fun s => s.MemfileDiffHeader.Generation) = some 0 ∧
    ((Sandbox.Snapshot envMaxGeneration64 (NewSandbox Env.ok).world).snapshot.map
      fun s => s.MemfileDiffHeader.Generation) ≠ some (18446744073709551615 + 1) := by
  decide

/-- C1, amended: for every parent memfile header, parent rootfs header and
parsed target build-id, when the other calls of `Snapshot` succeed it returns
headers whose metadata have `Version = 1`, `BuildId` the target build-id,
`BlockSize`, `Size` and `BaseBuildId` of the respective parent header, and
`Generation` the respective parent's generation plus one in the unsigned
arithmetic of the field: the parent's generation + 1 when that fits the field. -/
theorem snapshot_metadata (env : Env) (w : World) (buildId : UUID) (mem root : Metadata)
    (hparse : env.uuidParse = .ok buildId) (hmem : env.snapMemfile = .ok mem)
    (hroot : env.snapRootfs = .ok root) (hcalls : env.snapshotCallsSucceed = true) :
    (Sandbox.Snapshot env w).err = none ∧
    (Sandbox.Snapshot env w).snapshot = some
      { MemfileDiffHeader :=
          { Version := 1
            Generation := (mem.Generation + 1) % 2 ^ env.generationBits
            BlockSize := mem.BlockSize
            Size := mem.Size
            BuildId := buildId
            BaseBuildId := mem.BaseBuildId }
        RootfsDiffHeader :=
          { Version := 1
            Generation := (root.Generation + 1) % 2 ^ env.generationBits
            BlockSize := root.BlockSize
            Size := root.Size
            BuildId := buildId
            BaseBuildId := root.BaseBuildId } } ∧
    (mem.Generation + 1 < 2 ^ env.generationBits →
      (mem.Generation + 1) % 2 ^ env.generationBits = mem.Generation + 1) ∧
    (root.Generation + 1 < 2 ^ env.generationBits →
      (root.Generation + 1) % 2 ^ env.generationBits = root.Generation + 1) := by
  simp only [Env.snapshotCallsSucceed, Bool.and_eq_true, Option.isNone_iff_eq_none] at hcalls
  obtain ⟨⟨⟨⟨⟨⟨⟨⟨⟨⟨⟨⟨⟨⟨⟨⟨h1, h2⟩, h3⟩, h4⟩, h5⟩, h6⟩, h7⟩, h8⟩, h9⟩, h10⟩, h11⟩, h12⟩, h13⟩,
    h14⟩, h15⟩, h16⟩, h17⟩ := hcalls
  refine ⟨?_, ?_, fun h => Nat.mod_eq_of_lt h, fun h => Nat.mod_eq_of_lt h⟩
  · simp [Sandbox.Snapshot, Sandbox.snapshotDeferred, hparse, hmem, hroot, h1, h2, h3, h4, h5,
      h6, h7, h8, h9, h10, h11, h12, h13, h14, h15, h16, h17]
  · simp [Sandbox.Snapshot, Sandbox.snapshotDeferred, hparse, hmem, hroot, h1, h2, h3, h4, h5,
      h6, h7, h8, h9, h10, h11, h12, h13, h14, h15, h16, h17, uintAdd]

/-- C1, amended, at the generation-0 parent headers of the reference
environment. -/
theorem snapshot_metadata_witness :
    (Sandbox.Snapshot Env.ok (NewSandbox Env.ok).world).err = none ∧
    (Sandbox.Snapshot Env.ok (NewSandbox Env.ok).world).snapshot = some
      { MemfileDiffHeader :=
          { Version := 1
            Generation := (0 + 1) % 2 ^ 32
            BlockSize := 4096
            Size := 134217728
            BuildId := 7
            BaseBuildId := 5 }
        RootfsDiffHeader :=
          { Version := 1
            Generation := (0 + 1) % 2 ^ 32
            BlockSize := 2097152
            Size := 1073741824
            BuildId := 7
            BaseBuildId := 5 } } :=
  ⟨(snapshot_metadata Env.ok (NewSandbox Env.ok).world 7 _ _ rfl rfl rfl (by decide)).1,
    (snapshot_metadata Env.ok (NewSandbox Env.ok).world 7 _ _ rfl rfl rfl (by decide)).2.1⟩

/-! ## C10: failure of the hypervisor's Pause -/

/-- C10, counterexample: on a freshly built sandbox, whose health context is
not cancelled, a `Snapshot` whose `Pause` fails returns an error and leaves the
health context cancelled. -/
theorem snapshot_pause_failure_cancels_health_context :
    (NewSandbox Env.ok).world.healthcheckCancelled = false ∧
    (Sandbox.Snapshot envPauseFails (NewSandbox Env.ok).world).err.isSome = true ∧
    (Sandbox.Snapshot envPauseFails (NewSandbox Env.ok).world).world.healthcheckCancelled
      = true := by
  decide

/-- C10, amended: if the hypervisor's `Pause` fails with `e`, `Snapshot` returns
a nil snapshot and the error `error pausing vm: e`; it has made the build-id
parse, the memfile header read, the cancellation of the health context and the
failed `Pause`, and no later call; the world is as before the call except that
the health context is cancelled (the hypervisor is not paused, the pager is not
disabled, the registry is untouched), so a subsequent `Stop` on a registry that
was not drained makes all the calls of its entries. -/
theorem snapshot_pause_failure (env env2 : Env) (w : World) (buildId : UUID) (mem : Metadata)
    (e : GoError) (hparse : env.uuidParse = .ok buildId) (hmem : env.snapMemfile = .ok mem)
    (hpause : env.fcPause = some e) :
    (Sandbox.Snapshot env w).snapshot = none ∧
    (Sandbox.Snapshot env w).err = some (fmtErrorf "error pausing vm" e) ∧
    (Sandbox.Snapshot env w).world =
      { w with
        healthcheckCancelled := true
        trace := w.trace ++ [.call .uuidParse true, .call .templateMemfile true,
          .call .healthcheckCancel true, .call .fcPause false] } ∧
    (w.cleanup.drained = false →
      callsSince (Sandbox.Snapshot env w).world
        (Sandbox.Stop env2 (Sandbox.Snapshot env w).world).1 = w.cleanup.calls) := by
  have hw : (Sandbox.Snapshot env w).world =
      { w with
        healthcheckCancelled := true
        trace := w.trace ++ [.call .uuidParse true, .call .templateMemfile true,
          .call .healthcheckCancel true, .call .fcPause false] } := by
    simp [Sandbox.Snapshot, hparse, hmem, hpause, World.log]
  refine ⟨?_, ?_, hw, ?_⟩
  · simp [Sandbox.Snapshot, hparse, hmem, hpause]
  · simp [Sandbox.Snapshot, hparse, hmem, hpause]
  · intro hd
    rw [Stop_world, Run_calls env2 _ (by rw [hw]; exact hd), hw]

/-- C10, amended, on a freshly built sandbox. -/
theorem snapshot_pause_failure_witness :
    (Sandbox.Snapshot envPauseFails (NewSandbox Env.ok).world).snapshot = none ∧
    (Sandbox.Snapshot envPauseFails (NewSandbox Env.ok).world).err =
      some (fmtErrorf "error pausing vm" (.leaf "vm busy")) ∧
    callsSince (Sandbox.Snapshot envPauseFails (NewSandbox Env.ok).world).world
      (Sandbox.Stop Env.ok (Sandbox.Snapshot envPauseFails (NewSandbox Env.ok).world).world).1
      = (NewSandbox Env.ok).world.cleanup.calls :=
  ⟨(snapshot_pause_failure envPauseFails Env.ok (NewSandbox Env.ok).world 7 _
      (.leaf "vm busy") rfl rfl rfl).1,
    (snapshot_pause_failure envPauseFails Env.ok (NewSandbox Env.ok).world 7 _
      (.leaf "vm busy") rfl rfl rfl).2.1,
    (snapshot_pause_failure envPauseFails Env.ok (NewSandbox Env.ok).world 7 _
      (.leaf "vm busy") rfl rfl rfl).2.2.2 rfl⟩

end Orchestrator
